import Mathlib

/-!
Verification development for the `ehr-streamlit` repository.

Shallow embedding of the AI document/chat pipeline of the repository
(`src/app_enhanced.py`, `src/app.py`, `src/db.py`, `src/auth.py`):
the conversation store, the audit log, document ingestion
(`process_document`), prompt/context assembly
(`get_document_analysis_prompt`, `perform_multi_document_analysis`)
and the chat orchestration flow (`show_ai_assistant`).

External collaborators (DuckDB row storage, the OpenAI generation
service, PyPDF2/PIL byte-level parsers) are modelled by their observable
results: the row store as explicit lists with an insertion clock, the
generation call as an `Option String` outcome (`none` models a raised
exception), parser outcomes as `Option` fields of the uploaded file.
Python `datetime.now()` is threaded as explicit parameters.
-/

namespace EhrStreamlit

/-! ## String infrastructure

Small lemmas about `String` as a packed `List Char`, and a substring
predicate used to state that a prompt contains a given section.
-/

theorem strData_append (a b : String) : (a ++ b).data = a.data ++ b.data := by
  cases a; cases b; rfl

theorem strAppend_assoc (a b c : String) : a ++ b ++ c = a ++ (b ++ c) := by
  cases a with
  | mk la =>
    cases b with
    | mk lb =>
      cases c with
      | mk lc =>
        show String.mk (la ++ lb ++ lc) = String.mk (la ++ (lb ++ lc))
        rw [List.append_assoc]

theorem strEmpty_append (s : String) : "" ++ s = s := by
  cases s with
  | mk l => show String.mk ([] ++ l) = String.mk l; rw [List.nil_append]

theorem strAppend_empty (s : String) : s ++ "" = s := by
  cases s with
  | mk l => show String.mk (l ++ []) = String.mk l; rw [List.append_nil]

theorem strLength_append (a b : String) : (a ++ b).length = a.length + b.length := by
  cases a with
  | mk la =>
    cases b with
    | mk lb =>
      show (la ++ lb).length = la.length + lb.length
      exact List.length_append la lb

/-- Substring occurrence: `ContainsStr pat s` holds when `pat` occurs as a contiguous substring of
`s`: `s` splits as some text, then `pat`, then some text. -/
def ContainsStr (pat s : String) : Prop := ∃ x y, s = x ++ (pat ++ y)

theorem containsStr_head (pat x : String) : ContainsStr pat (pat ++ x) :=
  ⟨"", x, (strEmpty_append (pat ++ x)).symm⟩

theorem containsStr_self (pat : String) : ContainsStr pat pat :=
  ⟨"", "", by rw [strAppend_empty, strEmpty_append]⟩

theorem containsStr_append_left (t : String) {pat s : String}
    (h : ContainsStr pat s) : ContainsStr pat (t ++ s) := by
  obtain ⟨x, y, hx⟩ := h
  exact ⟨t ++ x, y, by rw [hx, strAppend_assoc]⟩

theorem containsStr_append_right (t : String) {pat s : String}
    (h : ContainsStr pat s) : ContainsStr pat (s ++ t) := by
  obtain ⟨x, y, hx⟩ := h
  refine ⟨x, y ++ t, ?_⟩
  rw [hx, strAppend_assoc, strAppend_assoc]

theorem containsStr_length_le {pat s : String}
    (h : ContainsStr pat s) : pat.length ≤ s.length := by
  obtain ⟨x, y, hx⟩ := h
  rw [hx, strLength_append, strLength_append]
  omega

/-- Python slice `s[:n]`. -/
def pySlice (s : String) (n : Nat) : String := String.mk (s.data.take n)

theorem pySlice_length_le (s : String) (n : Nat) : (pySlice s n).length ≤ n := by
  show (s.data.take n).length ≤ n
  rw [List.length_take]
  omega

theorem pySlice_ne_empty (s : String) (n : Nat) (hs : s ≠ "") (hn : 0 < n) :
    pySlice s n ≠ "" := by
  cases s with
  | mk l =>
    cases l with
    | nil => exact absurd rfl hs
    | cons c cs =>
      cases n with
      | zero => omega
      | succ m =>
        intro h
        have h2 : (c :: cs).take (m + 1) = ([] : List Char) := congrArg String.data h
        simp [List.take] at h2

/-! ## Conversation store (`src/db.py`)

The `ai_conversations` DuckDB table: an append-only row store with an
auto-incrementing id sequence and `CURRENT_TIMESTAMP` on insert.  The
database clock is modelled explicitly: every insert stamps the current
clock and advances it, which embeds DuckDB assigning non-decreasing
(here: strictly increasing) timestamps to successive inserts.
-/

/-- One row of the `ai_conversations` table
(`db.py`, `init_db`: id, patient_id, timestamp, role, content). -/
structure ConvRow where
  id : Nat
  patient_id : Nat
  timestamp : Nat
  role : String
  content : String
deriving DecidableEq

/-- The `ai_conversations` table plus the id sequence and the insertion
clock of the underlying store. -/
structure ConvDB where
  rows : List ConvRow
  nextId : Nat
  clock : Nat
deriving DecidableEq

/-- Store well-formedness: rows were inserted with strictly increasing
timestamps, all in the past of the current clock. -/
def ConvDB.wf (db : ConvDB) : Prop :=
  db.rows.Pairwise (fun a b => a.timestamp < b.timestamp)
    ∧ ∀ r ∈ db.rows, r.timestamp < db.clock

/-- Source `db.py` `add_ai_conversation_entry(patient_id, role, content)`:
`INSERT INTO ai_conversations (patient_id, timestamp, role, content)
VALUES (?, CURRENT_TIMESTAMP, ?, ?)`. -/
def add_ai_conversation_entry (db : ConvDB) (patient_id : Nat)
    (role content : String) : ConvDB :=
  { rows := db.rows ++ [⟨db.nextId, patient_id, db.clock, role, content⟩]
    nextId := db.nextId + 1
    clock := db.clock + 1 }

/-- Insert a row into a list that is ordered by ascending timestamp. -/
def insertTsAsc (r : ConvRow) : List ConvRow → List ConvRow
  | [] => [r]
  | x :: xs =>
    if r.timestamp ≤ x.timestamp then r :: x :: xs else x :: insertTsAsc r xs

/-- The `ORDER BY timestamp ASC` clause of the SQL query, as an insertion sort. -/
def sortTsAsc : List ConvRow → List ConvRow
  | [] => []
  | x :: xs => insertTsAsc x (sortTsAsc xs)

/-- The rows the query `SELECT ... FROM ai_conversations WHERE patient_id = ?
ORDER BY timestamp ASC` visits for a patient. -/
def conversationRows (db : ConvDB) (patient_id : Nat) : List ConvRow :=
  sortTsAsc (db.rows.filter (fun r => r.patient_id == patient_id))

/-- Source `db.py` `get_ai_conversation_history(patient_id)`: `SELECT role, content
FROM ai_conversations WHERE patient_id = ? ORDER BY timestamp ASC`, returned
as (role, content) records. -/
def get_ai_conversation_history (db : ConvDB) (patient_id : Nat) :
    List (String × String) :=
  (conversationRows db patient_id).map (fun r => (r.role, r.content))

/-- A read of the history threaded through the store state: the source
opens a connection, runs a `SELECT`, and closes it, leaving the store
untouched, so the read returns the result together with the unchanged
store. -/
def readHistory (db : ConvDB) (patient_id : Nat) :
    List (String × String) × ConvDB :=
  (get_ai_conversation_history db patient_id, db)

theorem mem_insertTsAsc (a r : ConvRow) (l : List ConvRow) :
    a ∈ insertTsAsc r l ↔ a = r ∨ a ∈ l := by
  induction l with
  | nil => simp [insertTsAsc]
  | cons x xs ih =>
    by_cases h : r.timestamp ≤ x.timestamp
    · simp [insertTsAsc, h]
    · simp [insertTsAsc, h, ih]
      tauto

theorem mem_sortTsAsc (a : ConvRow) (l : List ConvRow) :
    a ∈ sortTsAsc l ↔ a ∈ l := by
  induction l with
  | nil => simp [sortTsAsc]
  | cons x xs ih => simp [sortTsAsc, mem_insertTsAsc, ih]

theorem sortTsAsc_eq_self (l : List ConvRow)
    (h : l.Pairwise (fun a b => a.timestamp < b.timestamp)) :
    sortTsAsc l = l := by
  induction l with
  | nil => rfl
  | cons x xs ih =>
    rw [List.pairwise_cons] at h
    show insertTsAsc x (sortTsAsc xs) = x :: xs
    rw [ih h.2]
    cases xs with
    | nil => rfl
    | cons y ys =>
      have hxy : x.timestamp ≤ y.timestamp :=
        Nat.le_of_lt (h.1 y (List.mem_cons_self y ys))
      simp [insertTsAsc, hxy]

theorem getLast?_append_single {α : Type} (l : List α) (a : α) :
    (l ++ [a]).getLast? = some a := by
  induction l with
  | nil => rfl
  | cons x xs ih =>
    rw [List.cons_append]
    cases hx : xs ++ [a] with
    | nil => simp at hx
    | cons y ys =>
      rw [List.getLast?_cons_cons, ← hx]
      exact ih

/-- The row `add_ai_conversation_entry` inserts. -/
def newConvRow (db : ConvDB) (pid : Nat) (role content : String) : ConvRow :=
  ⟨db.nextId, pid, db.clock, role, content⟩

/-- After an append the filtered rows of the appended patient are the old
filtered rows with the fresh row at the end, still strictly ascending. -/
theorem conversationRows_append (db : ConvDB) (hwf : db.wf) (pid : Nat)
    (role content : String) :
    conversationRows (add_ai_conversation_entry db pid role content) pid
        = db.rows.filter (fun r => r.patient_id == pid)
            ++ [newConvRow db pid role content]
      ∧ (conversationRows (add_ai_conversation_entry db pid role content)
            pid).Pairwise (fun a b => a.timestamp < b.timestamp) := by
  have hfilter :
      (add_ai_conversation_entry db pid role content).rows.filter
          (fun r => r.patient_id == pid)
        = db.rows.filter (fun r => r.patient_id == pid)
            ++ [newConvRow db pid role content] := by
    show (db.rows ++ [newConvRow db pid role content]).filter _ = _
    rw [List.filter_append]
    simp [newConvRow]
  have hpairwise :
      (db.rows.filter (fun r => r.patient_id == pid)
          ++ [newConvRow db pid role content]).Pairwise
        (fun a b => a.timestamp < b.timestamp) := by
    rw [List.pairwise_append]
    refine ⟨hwf.1.filter _, List.pairwise_singleton _ _, ?_⟩
    intro a ha b hb
    have hmem : a ∈ db.rows := List.mem_of_mem_filter ha
    have hlt : a.timestamp < db.clock := hwf.2 a hmem
    rw [List.mem_singleton] at hb
    rw [hb]
    exact hlt
  constructor
  · show sortTsAsc _ = _
    rw [hfilter]
    exact sortTsAsc_eq_self _ hpairwise
  · show (sortTsAsc _).Pairwise _
    rw [hfilter, sortTsAsc_eq_self _ hpairwise]
    exact hpairwise

/-- The empty conversation store right after `init_db`. -/
def emptyConvDB : ConvDB := ⟨[], 1, 0⟩

/-- A store holding one earlier turn of patient 2. -/
def convDBq : ConvDB := ⟨[⟨1, 2, 0, "user", "hi"⟩], 2, 1⟩

/-- C6: appending a conversation turn and then reading the patient
history returns a sequence in ascending timestamp order whose final
element is exactly the just-appended turn, and two reads with no
intervening append return identical sequences
(`db.py` `add_ai_conversation_entry` / `get_ai_conversation_history`). -/
theorem append_then_read_roundtrip (db : ConvDB) (hwf : db.wf) (pid : Nat)
    (role content : String) :
    (conversationRows (add_ai_conversation_entry db pid role content)
        pid).Pairwise (fun a b => a.timestamp < b.timestamp)
    ∧ (get_ai_conversation_history
         (add_ai_conversation_entry db pid role content) pid).getLast?
        = some (role, content)
    ∧ (readHistory (add_ai_conversation_entry db pid role content) pid).1
        = (readHistory
            ((readHistory (add_ai_conversation_entry db pid role content)
                pid).2) pid).1 := by
  obtain ⟨heq, hpw⟩ := conversationRows_append db hwf pid role content
  refine ⟨hpw, ?_, rfl⟩
  show ((conversationRows _ pid).map _).getLast? = _
  rw [heq, List.map_append, List.map_cons, List.map_nil]
  exact getLast?_append_single _ _

/-- Witness for C6 at the empty store. -/
theorem append_then_read_roundtrip_witness :
    ConvDB.wf emptyConvDB
    ∧ ((conversationRows
          (add_ai_conversation_entry emptyConvDB 1 "user" "hello")
          1).Pairwise (fun a b => a.timestamp < b.timestamp)
      ∧ (get_ai_conversation_history
           (add_ai_conversation_entry emptyConvDB 1 "user" "hello")
           1).getLast? = some ("user", "hello")
      ∧ (readHistory (add_ai_conversation_entry emptyConvDB 1 "user" "hello")
            1).1
          = (readHistory
              ((readHistory
                  (add_ai_conversation_entry emptyConvDB 1 "user" "hello")
                  1).2) 1).1) :=
  ⟨⟨List.Pairwise.nil, by simp [emptyConvDB]⟩,
   append_then_read_roundtrip emptyConvDB
     ⟨List.Pairwise.nil, by simp [emptyConvDB]⟩ 1 "user" "hello"⟩

/-- C10: appending a turn for patient `p` leaves the history returned for a
distinct patient `q` unchanged, and every row read for `q` belongs to `q`
(`db.py` `add_ai_conversation_entry` / `get_ai_conversation_history`). -/
theorem conversation_patient_isolation (db : ConvDB) (p q : Nat)
    (hpq : p ≠ q) (role content : String) :
    get_ai_conversation_history (add_ai_conversation_entry db p role content)
        q
      = get_ai_conversation_history db q
    ∧ ∀ r ∈ conversationRows db q, r.patient_id = q := by
  constructor
  · have hfilter :
        (db.rows ++ [newConvRow db p role content]).filter
            (fun r => r.patient_id == q)
          = db.rows.filter (fun r => r.patient_id == q) := by
      rw [List.filter_append]
      simp [newConvRow, hpq]
    show (sortTsAsc ((db.rows ++ [newConvRow db p role content]).filter
        (fun r => r.patient_id == q))).map (fun r => (r.role, r.content)) = _
    rw [hfilter]
    rfl
  · intro r hr
    have hmem : r ∈ db.rows.filter (fun r => r.patient_id == q) :=
      (mem_sortTsAsc r _).mp hr
    have hq : (r.patient_id == q) = true := (List.mem_filter.mp hmem).2
    exact eq_of_beq hq

/-- Witness for C10 at a concrete two-patient store. -/
theorem conversation_patient_isolation_witness :
    (1 : Nat) ≠ 2
    ∧ (get_ai_conversation_history
          (add_ai_conversation_entry convDBq 1 "user" "ping") 2
        = get_ai_conversation_history convDBq 2
      ∧ ∀ r ∈ conversationRows convDBq 2, r.patient_id = 2) :=
  ⟨by decide,
   conversation_patient_isolation convDBq 1 2 (by decide) "user" "ping"⟩

/-! ## PDF text extraction (`src/app_enhanced.py`, `process_document`)

The PDF branch walks `pdf_reader.pages` with `enumerate(..., 1)` and, for
each page whose `extract_text()` result has a non-empty `strip()`, appends
`"\n--- Page {page_num} ---\n{page_text}\n"` to the accumulated content.
Byte-level parsing is delegated to PyPDF2; the embedding starts from the
list of per-page extracted texts.
-/

/-- Whitespace as removed by Python `str.strip()` (ASCII whitespace:
space, tab, newline, vertical tab, form feed, carriage return). -/
def isPyWhitespace (c : Char) : Bool :=
  c == ' ' || c == '\t' || c == '\n' || c == '\x0b' || c == '\x0c' || c == '\r'

/-- Truthiness of `page_text.strip()`: the page text contains at least one
non-whitespace character. -/
def containsNonWs (s : String) : Bool :=
  s.data.any (fun c => !(isPyWhitespace c))

/-- The page block `f"\n--- Page {page_num} ---\n{page_text}\n"`. -/
def pdfPageBlock (page_num : Nat) (page_text : String) : String :=
  "\n--- Page " ++ (toString page_num ++ (" ---\n" ++ (page_text ++ "\n")))

/-- The `for page_num, page in enumerate(pdf_reader.pages, 1)` loop:
`page_num` is the 1-based number of the next page to visit. -/
def pdfExtractLoop : Nat → List String → String
  | _, [] => ""
  | page_num, t :: ts =>
    (if containsNonWs t then pdfPageBlock page_num t else "")
      ++ pdfExtractLoop (page_num + 1) ts

/-- The extracted `file_content` of the PDF branch of `process_document`,
from the per-page texts. -/
def pdfExtract (pages : List String) : String := pdfExtractLoop 1 pages

/-- Occurrences of a pattern starting at the head of a character list. -/
def charsLead : List Char → List Char → Bool
  | [], _ => true
  | _ :: _, [] => false
  | a :: as, b :: bs => a == b && charsLead as bs

/-- Number of positions of `s` at which the pattern `pat` occurs. -/
def countOccurChars (pat : List Char) : List Char → Nat
  | [] => 0
  | c :: rest =>
    (if charsLead pat (c :: rest) then 1 else 0) + countOccurChars pat rest

/-- Number of occurrences of `pat` as a substring of `s` (`pat` nonempty). -/
def countOccur (pat s : String) : Nat := countOccurChars pat.data s.data

/-- C4: whitespace-only pages contribute nothing to the extracted output
(no empty marker); a page with non-empty text is prefixed with the page
marker carrying its 1-based number; and the 2-page scenario with "Hello"
then an empty page yields exactly one page marker, for page 1, with
content "Hello" (`app_enhanced.py` `process_document`, PDF branch). -/
theorem pdf_extraction_page_markers :
    (∀ n t ts, containsNonWs t = false →
      pdfExtractLoop n (t :: ts) = pdfExtractLoop (n + 1) ts)
    ∧ (∀ n t ts, containsNonWs t = true →
      pdfExtractLoop n (t :: ts)
        = pdfPageBlock n t ++ pdfExtractLoop (n + 1) ts)
    ∧ pdfExtract ["Hello", ""] = "\n--- Page 1 ---\nHello\n"
    ∧ countOccur "--- Page " (pdfExtract ["Hello", ""]) = 1 := by
  refine ⟨?_, ?_, by decide, by decide⟩
  · intro n t ts h
    show (if containsNonWs t then pdfPageBlock n t else "") ++ _ = _
    rw [h]
    show "" ++ pdfExtractLoop (n + 1) ts = _
    rw [strEmpty_append]
  · intro n t ts h
    show (if containsNonWs t then pdfPageBlock n t else "") ++ _ = _
    rw [h, if_pos rfl]

/-- Witness for C4: the skip clause at a whitespace-only page and the
marker clause at a non-empty page, at concrete inputs. -/
theorem pdf_extraction_page_markers_witness :
    (containsNonWs "  \n" = false
      ∧ pdfExtractLoop 3 ["  \n", "x"] = pdfExtractLoop 4 ["x"])
    ∧ (containsNonWs "x" = true
      ∧ pdfExtractLoop 7 ["x"] = pdfPageBlock 7 "x" ++ pdfExtractLoop 8 []) :=
  ⟨⟨by decide, pdf_extraction_page_markers.1 3 "  \n" ["x"] (by decide)⟩,
   ⟨by decide, pdf_extraction_page_markers.2.1 7 "x" [] (by decide)⟩⟩

/-! ## Patient data and prompt assembly (`src/app_enhanced.py`)

`get_document_analysis_prompt` (single-document analysis),
`perform_multi_document_analysis` (its `combined_content`), and the chat
patient context of `show_ai_assistant`.  Python `datetime.now().year` is
the explicit `currentYear` parameter; `strftime` timestamps are threaded
as strings.
-/

/-- The demographic snapshot `patient_info` read from the `patients`
table (name, dob, gender, contact, address, id).  The date of birth is
split into year/month/day as the source accesses `dob.year` (prompts) and
`STRFTIME(dob, ...)` (analytics). -/
structure PatientInfo where
  name : String
  dobYear : Nat
  dobMonth : Nat
  dobDay : Nat
  gender : String
  contact : String
  address : String
  id : Nat
deriving DecidableEq

/-- The `file_metadata` dict of `process_document`: the unconditional
name/type/size keys plus the keys added only on some branches (PDF
title/pages, image format/mode/width/height), modelled as `Option`s.
The PDF author/creator keys are never read downstream and are omitted. -/
structure FileMetadata where
  name : String
  mime : String
  size : Nat
  title : Option String := none
  pages : Option Nat := none
  imgFormat : Option String := none
  imgMode : Option String := none
  imgWidth : Option Nat := none
  imgHeight : Option Nat := none
deriving DecidableEq

/-- Python `f"{size/1024:.1f}"`: the file size in KB with one decimal,
computed here by exact decimal rounding of `size*10/1024` (the source
rounds the nearest binary double; the difference is immaterial to every
property stated below, which treats this component as opaque text). -/
def kbStr (size : Nat) : String :=
  toString ((size * 10 + 512) / 1024 / 10)
    ++ ("." ++ toString ((size * 10 + 512) / 1024 % 10))

/-- The age the prompts embed: `datetime.now().year` minus the dob year
— a naive calendar-year subtraction with no month/day adjustment. -/
def promptAge (currentYear dobYear : Nat) : Int :=
  (currentYear : Int) - (dobYear : Int)

/-- The month/day-adjusted age of `db.py` `get_patient_age_distribution`:
`STRFTIME(CURRENT_DATE, %Y) - STRFTIME(dob, %Y) -
(STRFTIME(CURRENT_DATE, %m%d) < STRFTIME(dob, %m%d))`, the `%m%d`
values read as the integer `month*100 + day`. -/
def calendar_age (cy cm cd dy dm dd : Nat) : Int :=
  (cy : Int) - (dy : Int) - (if cm * 100 + cd < dm * 100 + dd then 1 else 0)

/-- The `, {age} years old, ` phrase every prompt embeds around the naive
age. -/
def age_phrase (currentYear dobYear : Nat) : String :=
  ", " ++ (toString (promptAge currentYear dobYear) ++ " years old, ")

/-- Dict access `file_metadata.get` with default `Unknown`, for string values. -/
def optStr (o : Option String) : String := o.getD "Unknown"

/-- Dict access `file_metadata.get` with default `Unknown`, for numeric values, rendered. -/
def optNatStr : Option Nat → String
  | some n => toString n
  | none => "Unknown"

/-- Opening text of the single-document analysis prompt. -/
def analysis_intro : String :=
  "\nYou are an expert clinical AI assistant analyzing medical documents for patient care.\n\n"

/-- The fixed ANALYSIS TASKS tail of the single-document analysis prompt. -/
def analysis_tasks : String :=
  "\n\nANALYSIS TASKS:\n"
    ++ ("1. **Document Type Identification**: Identify what type of medical document this is (lab results, imaging report, clinical notes, prescription, etc.)\n\n"
    ++ ("2. **Key Findings Extraction**:\n   - Extract all numerical values, measurements, and test results\n   - Identify abnormal or critical values\n   - Note any trends or patterns\n\n"
    ++ ("3. **Clinical Significance Assessment**:\n   - Interpret the findings in clinical context\n   - Assess severity and urgency\n   - Identify potential red flags\n\n"
    ++ ("4. **Diagnostic Insights**:\n   - What conditions or diagnoses might these findings suggest?\n   - What differential diagnoses should be considered?\n   - Are there findings that require immediate attention?\n\n"
    ++ ("5. **Recommendations**:\n   - Suggested follow-up tests or consultations\n   - Treatment considerations based on findings\n   - Monitoring recommendations\n\n"
    ++ ("6. **Risk Assessment**:\n   - Identify high-risk findings\n   - Assess overall clinical risk level\n   - Note any contraindications or warnings\n\n"
    ++ "Please provide a comprehensive, structured analysis that would be valuable for clinical decision-making. Use clear medical terminology but explain complex concepts. Highlight any critical findings that require urgent attention.\n"))))))

/-- The CLINICAL CONTEXT / DOCUMENT INFORMATION head of `base_context`. -/
def patient_and_document_info (meta : FileMetadata) (p : PatientInfo)
    (doc_type : String) (currentYear : Nat) : String :=
  "\nCLINICAL CONTEXT:\nPatient: "
    ++ (p.name
    ++ (age_phrase currentYear p.dobYear
    ++ (p.gender
    ++ ("\nPatient ID: "
    ++ (toString p.id
    ++ ("\nContact: "
    ++ (p.contact
    ++ ("\nAddress: "
    ++ (p.address
    ++ ("\n\nDOCUMENT INFORMATION:\nType: "
    ++ (doc_type.toUpper
    ++ ("\nFilename: "
    ++ (meta.name
    ++ ("\nFile Size: "
    ++ (kbStr meta.size ++ " KB\n")))))))))))))))

/-- PDF metadata lines: emitted when `doc_type == "pdf"` and the metadata
carries a page count; the title line additionally requires a title other
than `Unknown`. -/
def pdf_meta_section (meta : FileMetadata) (doc_type : String) : String :=
  if doc_type = "pdf" then
    match meta.pages with
    | some n =>
      ("Pages: " ++ (toString n ++ "\n"))
        ++ (match meta.title with
            | some t =>
              if t ≠ "Unknown" then "Document Title: " ++ (t ++ "\n") else ""
            | none => "")
    | none => ""
  else ""

/-- Image details lines, emitted when `doc_type == "image"`. -/
def image_meta_section (meta : FileMetadata) (doc_type : String) : String :=
  if doc_type = "image" then
    "\nImage Details:\nFormat: "
      ++ (optStr meta.imgFormat
      ++ ("\nDimensions: "
      ++ (optNatStr meta.imgWidth
      ++ ("x"
      ++ (optNatStr meta.imgHeight
      ++ (" pixels\nColor Mode: "
      ++ (optStr meta.imgMode ++ "\n")))))))
  else ""

/-- The DOCUMENT CONTENT section: the content sliced to 8000 characters
(`file_content[:8000]`), with the literal trailing comment that sits
inside the f-string in the source. -/
def content_section (file_content : String) : String :=
  "\nDOCUMENT CONTENT:\n"
    ++ (pySlice file_content 8000
    ++ "  # Limit content to avoid token limits\n")

/-- The single-document truncation note, emitted when the content exceeds
8000 characters. -/
def trunc_note_single (n : Nat) : String :=
  "\n[Note: Document truncated - showing first 8000 characters of "
    ++ (toString n ++ " total characters]")

/-- The content part of `base_context`: present only for text/PDF
documents. -/
def content_block (file_content : String) (doc_type : String) : String :=
  if doc_type = "text" ∨ doc_type = "pdf" then
    content_section file_content
      ++ (if 8000 < file_content.length then
            trunc_note_single file_content.length
          else "")
  else ""

/-- The `base_context` variable of `get_document_analysis_prompt`. -/
def base_context (file_content : String) (meta : FileMetadata)
    (p : PatientInfo) (doc_type : String) (currentYear : Nat) : String :=
  patient_and_document_info meta p doc_type currentYear
    ++ (pdf_meta_section meta doc_type
    ++ (image_meta_section meta doc_type
    ++ content_block file_content doc_type))

/-- Source `app_enhanced.py` `get_document_analysis_prompt`. -/
def get_document_analysis_prompt (file_content : String)
    (meta : FileMetadata) (p : PatientInfo) (doc_type : String)
    (currentYear : Nat) : String :=
  analysis_intro
    ++ (base_context file_content meta p doc_type currentYear
    ++ analysis_tasks)

/-! ### Multi-document analysis (`perform_multi_document_analysis`) -/

/-- One entry of `selected_docs`: the processed document dict
(`name`/`type`/`size` metadata, optional page count, extracted content). -/
structure SelectedDoc where
  name : String
  dtype : String
  size : Nat
  pages : Option Nat
  content : String
deriving DecidableEq

/-- A row of 60 equal signs (Python repeats the one-character string 60 times). -/
def eq60 : String := String.mk (List.replicate 60 '=')

/-- A row of 60 dashes. -/
def dash60 : String := String.mk (List.replicate 60 '-')

/-- The per-document truncation marker of the multi-document prompt. -/
def trunc_note_multi (n : Nat) : String :=
  "[Document truncated - showing first 3000 of "
    ++ (toString n ++ " characters]\n")

/-- Header lines of one document block of `combined_content`. -/
def multi_doc_header_block (i : Nat) (d : SelectedDoc) : String :=
  ("DOCUMENT "
    ++ (toString i
    ++ (": "
    ++ (d.name
    ++ ("\nType: "
    ++ (d.dtype.toUpper
    ++ ("\nSize: "
    ++ (kbStr d.size ++ " KB\n"))))))))
    ++ (if d.dtype = "pdf" then
          match d.pages with
          | some n => "Pages: " ++ (toString n ++ "\n")
          | none => ""
        else "")

/-- One document block of `combined_content`: header, content capped at
3000 characters, truncation marker when cut, and the dashed separator. -/
def multi_doc_block (i : Nat) (d : SelectedDoc) : String :=
  multi_doc_header_block i d
    ++ (("Content:\n" ++ (pySlice d.content 3000 ++ "\n"))
    ++ ((if 3000 < d.content.length then
          trunc_note_multi d.content.length
        else "")
    ++ ("\n" ++ (dash60 ++ "\n\n"))))

/-- The `for i, doc in enumerate(selected_docs, 1)` loop. -/
def multi_doc_blocks : Nat → List SelectedDoc → String
  | _, [] => ""
  | i, d :: ds => multi_doc_block i d ++ multi_doc_blocks (i + 1) ds

/-- The fixed head of `combined_content` before the document blocks. -/
def multi_combined_header (docs : List SelectedDoc) (p : PatientInfo)
    (currentYear : Nat) (nowStr : String) : String :=
  "MULTI-DOCUMENT ANALYSIS REQUEST\n"
    ++ (eq60
    ++ ("\n\nPatient: "
    ++ (p.name
    ++ (age_phrase currentYear p.dobYear
    ++ (p.gender
    ++ ("\nAnalysis Date: "
    ++ (nowStr
    ++ ("\nNumber of Documents: "
    ++ (toString docs.length ++ "\n\n")))))))))

/-- The `combined_content` assembled by `perform_multi_document_analysis`. -/
def multi_document_combined_content (docs : List SelectedDoc)
    (p : PatientInfo) (currentYear : Nat) (nowStr : String) : String :=
  multi_combined_header docs p currentYear nowStr
    ++ multi_doc_blocks 1 docs

/-- The stripped `patient_context` f-string of `show_ai_assistant`
(`app_enhanced.py` lines 1657-1660). -/
def chat_patient_context (p : PatientInfo) (currentYear : Nat) : String :=
  "Patient: "
    ++ (p.name
    ++ (age_phrase currentYear p.dobYear
    ++ (p.gender
    ++ ("\nContact: " ++ p.contact))))

/-! ### Section-containment lemmas for the assembled prompts -/

theorem age_in_patient_info (meta : FileMetadata) (p : PatientInfo)
    (doc_type : String) (cy : Nat) :
    ContainsStr (age_phrase cy p.dobYear)
      (patient_and_document_info meta p doc_type cy) := by
  unfold patient_and_document_info
  apply containsStr_append_left
  apply containsStr_append_left
  exact containsStr_head _ _

theorem age_in_single_prompt (fc : String) (meta : FileMetadata)
    (p : PatientInfo) (doc_type : String) (cy : Nat) :
    ContainsStr (age_phrase cy p.dobYear)
      (get_document_analysis_prompt fc meta p doc_type cy) := by
  unfold get_document_analysis_prompt
  apply containsStr_append_left
  apply containsStr_append_right
  unfold base_context
  apply containsStr_append_right
  exact age_in_patient_info meta p doc_type cy

theorem age_in_multi_content (docs : List SelectedDoc) (p : PatientInfo)
    (cy : Nat) (nowStr : String) :
    ContainsStr (age_phrase cy p.dobYear)
      (multi_document_combined_content docs p cy nowStr) := by
  unfold multi_document_combined_content
  apply containsStr_append_right
  unfold multi_combined_header
  apply containsStr_append_left
  apply containsStr_append_left
  apply containsStr_append_left
  apply containsStr_append_left
  exact containsStr_head _ _

theorem age_in_chat_context (p : PatientInfo) (cy : Nat) :
    ContainsStr (age_phrase cy p.dobYear) (chat_patient_context p cy) := by
  unfold chat_patient_context
  apply containsStr_append_left
  apply containsStr_append_left
  exact containsStr_head _ _

theorem content_section_in_prompt (fc : String) (meta : FileMetadata)
    (p : PatientInfo) (doc_type : String) (cy : Nat)
    (h : doc_type = "text" ∨ doc_type = "pdf") :
    ContainsStr (content_section fc)
      (get_document_analysis_prompt fc meta p doc_type cy) := by
  unfold get_document_analysis_prompt
  apply containsStr_append_left
  apply containsStr_append_right
  unfold base_context
  apply containsStr_append_left
  apply containsStr_append_left
  apply containsStr_append_left
  unfold content_block
  rw [if_pos h]
  exact containsStr_head _ _

theorem trunc_note_in_prompt (fc : String) (meta : FileMetadata)
    (p : PatientInfo) (doc_type : String) (cy : Nat)
    (h : doc_type = "text" ∨ doc_type = "pdf")
    (h8 : 8000 < fc.length) :
    ContainsStr (trunc_note_single fc.length)
      (get_document_analysis_prompt fc meta p doc_type cy) := by
  unfold get_document_analysis_prompt
  apply containsStr_append_left
  apply containsStr_append_right
  unfold base_context
  apply containsStr_append_left
  apply containsStr_append_left
  apply containsStr_append_left
  unfold content_block
  rw [if_pos h, if_pos h8]
  apply containsStr_append_left
  exact containsStr_self _

theorem content_cap_in_multi_block (i : Nat) (d : SelectedDoc) :
    ContainsStr ("Content:\n" ++ (pySlice d.content 3000 ++ "\n"))
      (multi_doc_block i d) := by
  unfold multi_doc_block
  apply containsStr_append_left
  exact containsStr_head _ _

theorem trunc_note_in_multi_block (i : Nat) (d : SelectedDoc)
    (h3 : 3000 < d.content.length) :
    ContainsStr (trunc_note_multi d.content.length) (multi_doc_block i d) := by
  unfold multi_doc_block
  apply containsStr_append_left
  apply containsStr_append_left
  rw [if_pos h3]
  exact containsStr_head _ _

theorem trunc_note_in_multi_blocks (d : SelectedDoc)
    (h3 : 3000 < d.content.length) :
    ∀ (ds : List SelectedDoc) (i : Nat), d ∈ ds →
      ContainsStr (trunc_note_multi d.content.length)
        (multi_doc_blocks i ds) := by
  intro ds
  induction ds with
  | nil => intro i h; cases h
  | cons x xs ih =>
    intro i hmem
    rcases List.mem_cons.mp hmem with h | h
    · rw [← h]
      exact containsStr_append_right _ (trunc_note_in_multi_block i d h3)
    · exact containsStr_append_left _ (ih (i + 1) h)

theorem trunc_note_in_multi_content (docs : List SelectedDoc)
    (p : PatientInfo) (cy : Nat) (nowStr : String) (d : SelectedDoc)
    (hmem : d ∈ docs) (h3 : 3000 < d.content.length) :
    ContainsStr (trunc_note_multi d.content.length)
      (multi_document_combined_content docs p cy nowStr) := by
  unfold multi_document_combined_content
  exact containsStr_append_left _ (trunc_note_in_multi_blocks d h3 docs 1 hmem)

/-! ### Claims about prompt assembly -/

/-- C9: every age value embedded in AI prompt context (single-document
prompt, multi-document combined content, chat patient context) is the
naive `currentYear - dobYear` subtraction, and whenever the current
month/day precedes the birthday month/day this value exceeds the
calendar-aware age (as computed by `db.py` `get_patient_age_distribution`)
by one. -/
theorem prompt_age_naive_year_subtraction :
    (∀ fc meta p dt cy, ContainsStr (age_phrase cy p.dobYear)
        (get_document_analysis_prompt fc meta p dt cy))
    ∧ (∀ docs p cy nowStr, ContainsStr (age_phrase cy p.dobYear)
        (multi_document_combined_content docs p cy nowStr))
    ∧ (∀ p cy, ContainsStr (age_phrase cy p.dobYear)
        (chat_patient_context p cy))
    ∧ (∀ cy cm cd dy dm dd : Nat, cm * 100 + cd < dm * 100 + dd →
        promptAge cy dy = calendar_age cy cm cd dy dm dd + 1) := by
  refine ⟨fun fc meta p dt cy => age_in_single_prompt fc meta p dt cy,
          fun docs p cy n => age_in_multi_content docs p cy n,
          fun p cy => age_in_chat_context p cy, ?_⟩
  intro cy cm cd dy dm dd h
  unfold promptAge calendar_age
  rw [if_pos h]
  ring

/-- Witness for C9: on 2026-03-01 a patient born 2000-07-15 is rendered
as 26 in prompts though the calendar-aware age is 25. -/
theorem prompt_age_naive_year_subtraction_witness :
    3 * 100 + 1 < 7 * 100 + 15
    ∧ promptAge 2026 2000 = calendar_age 2026 3 1 2000 7 15 + 1 :=
  ⟨by decide,
   prompt_age_naive_year_subtraction.2.2.2 2026 3 1 2000 7 15 (by decide)⟩

/-- C7: selected document content is capped at 8000 characters in the
single-document prompt and 3000 characters per document in the
multi-document prompt (a strictly smaller cap), and content longer than
its cap leaves an explicit truncation marker recording the shown and
total character counts. -/
theorem per_document_caps_and_truncation_markers :
    (∀ fc meta p dt cy, dt = "text" ∨ dt = "pdf" →
        ContainsStr (content_section fc)
          (get_document_analysis_prompt fc meta p dt cy))
    ∧ (∀ s : String, (pySlice s 8000).length ≤ 8000)
    ∧ (∀ i d, ContainsStr ("Content:\n" ++ (pySlice d.content 3000 ++ "\n"))
        (multi_doc_block i d))
    ∧ (∀ s : String, (pySlice s 3000).length ≤ 3000)
    ∧ (3000 : Nat) < 8000
    ∧ (∀ fc meta p dt cy, dt = "text" ∨ dt = "pdf" → 8000 < fc.length →
        ContainsStr (trunc_note_single fc.length)
          (get_document_analysis_prompt fc meta p dt cy))
    ∧ (∀ docs p cy nowStr d, d ∈ docs → 3000 < d.content.length →
        ContainsStr (trunc_note_multi d.content.length)
          (multi_document_combined_content docs p cy nowStr)) :=
  ⟨fun fc meta p dt cy h => content_section_in_prompt fc meta p dt cy h,
   fun s => pySlice_length_le s 8000,
   fun i d => content_cap_in_multi_block i d,
   fun s => pySlice_length_le s 3000,
   by decide,
   fun fc meta p dt cy h h8 => trunc_note_in_prompt fc meta p dt cy h h8,
   fun docs p cy nowStr d hmem h3 =>
     trunc_note_in_multi_content docs p cy nowStr d hmem h3⟩

/-- Witness patient for the prompt-assembly claims. -/
def wPatient : PatientInfo :=
  ⟨"Ann Cole", 1980, 6, 15, "F", "555-0100", "1 Main St", 7⟩

/-- Witness metadata for the prompt-assembly claims. -/
def wMeta : FileMetadata := { name := "labs.txt", mime := "text/plain", size := 9000 }

/-- An 8001-character document content. -/
def wContent : String := String.mk (List.replicate 8001 'a')

/-- A selected document with 3001 characters of content. -/
def wDoc : SelectedDoc :=
  ⟨"r.txt", "text", 10, none, String.mk (List.replicate 3001 'x')⟩

/-- Witness for C7: both truncation markers appear at concrete inputs
exceeding the caps. -/
theorem per_document_caps_and_truncation_markers_witness :
    (("text" = "text" ∨ "text" = "pdf")
      ∧ 8000 < wContent.length
      ∧ ContainsStr (trunc_note_single wContent.length)
          (get_document_analysis_prompt wContent wMeta wPatient "text" 2026))
    ∧ (wDoc ∈ [wDoc] ∧ 3000 < wDoc.content.length
      ∧ ContainsStr (trunc_note_multi wDoc.content.length)
          (multi_document_combined_content [wDoc] wPatient 2026
            "2026-01-05 09:00:00")) :=
  ⟨⟨Or.inl rfl,
    by show 8000 < (List.replicate 8001 'a').length
       rw [List.length_replicate]
       omega,
    per_document_caps_and_truncation_markers.2.2.2.2.2.1 wContent wMeta
      wPatient "text" 2026 (Or.inl rfl)
      (by show 8000 < (List.replicate 8001 'a').length
          rw [List.length_replicate]
          omega)⟩,
   ⟨by simp,
    by show 3000 < (List.replicate 3001 'x').length
       rw [List.length_replicate]
       omega,
    per_document_caps_and_truncation_markers.2.2.2.2.2.2 [wDoc] wPatient 2026
      "2026-01-05 09:00:00" wDoc (by simp)
      (by show 3000 < (List.replicate 3001 'x').length
          rw [List.length_replicate]
          omega)⟩⟩

/-- Concrete 8000-character content for the budget counterexample. -/
def cexContent : String := String.mk (List.replicate 8000 'b')

/-- Concrete metadata for the budget counterexample. -/
def cexMeta : FileMetadata :=
  { name := "report.txt", mime := "text/plain", size := 8000 }

/-- Concrete patient for the budget counterexample. -/
def cexPatient : PatientInfo :=
  ⟨"Bea Dorn", 1975, 2, 2, "F", "555-0101", "2 Oak Ave", 3⟩

/-- Counterexample to C3 as stated: an assembled single-document prompt
whose serialized size exceeds 8000 characters — the only configured size
limit in the source — even though the document content itself sits at the
per-document cap; no total budget is enforced anywhere. -/
theorem serialized_prompt_exceeds_budget :
    8000 < (get_document_analysis_prompt cexContent cexMeta cexPatient
        "text" 2026).length := by
  have hc := content_section_in_prompt cexContent cexMeta cexPatient
    "text" 2026 (Or.inl rfl)
  have hle := containsStr_length_le hc
  have hsec : 8000 < (content_section cexContent).length := by
    unfold content_section
    rw [strLength_append, strLength_append]
    have h1 : (pySlice cexContent 8000).length = 8000 := by
      show (List.take 8000 (List.replicate 8000 'b')).length = 8000
      rw [List.length_take, List.length_replicate]
      omega
    rw [h1]
    decide
  omega

/-- C3 as amended: there is no total-size bound, but the content section of the current
upload is always present in the single-document prompt for
text/PDF uploads, is non-empty whenever the extracted content is
non-empty, and its sliced content never exceeds the 8000-character
per-document cap. -/
theorem upload_section_present_and_capped :
    (∀ fc meta p dt cy, dt = "text" ∨ dt = "pdf" →
        ContainsStr (content_section fc)
          (get_document_analysis_prompt fc meta p dt cy))
    ∧ (∀ fc : String, fc ≠ "" → pySlice fc 8000 ≠ "")
    ∧ (∀ fc : String, (pySlice fc 8000).length ≤ 8000) := by
  refine ⟨fun fc meta p dt cy h => content_section_in_prompt fc meta p dt cy h,
          ?_, fun fc => pySlice_length_le fc 8000⟩
  intro fc h
  exact pySlice_ne_empty fc 8000 h (by decide)

/-- Witness for the amended C3 at a concrete non-empty upload. -/
theorem upload_section_present_and_capped_witness :
    (("text" = "text" ∨ "text" = "pdf")
      ∧ ContainsStr (content_section "Hello")
          (get_document_analysis_prompt "Hello" cexMeta cexPatient "text"
            2026))
    ∧ (("Hello" : String) ≠ "" ∧ pySlice "Hello" 8000 ≠ "") :=
  ⟨⟨Or.inl rfl,
    upload_section_present_and_capped.1 "Hello" cexMeta cexPatient "text"
      2026 (Or.inl rfl)⟩,
   ⟨by decide, upload_section_present_and_capped.2.1 "Hello" (by decide)⟩⟩

/-! ## Document ingestion (`src/app_enhanced.py`, `process_document`)

`process_document(uploaded_file)` branches on the client-declared MIME
type `uploaded_file.type`: `"text/plain"` (strict UTF-8 decode),
`"application/pdf"` (PyPDF2 page walk), any type with
`type.startswith("image/")` (PIL parse + base64 descriptor), and
otherwise falls through to `return None, file_metadata, "unknown"`.
Byte-level parsing is delegated to the libraries; an uploaded file is
embedded by its declared type, size, name and the outcome each parser
would produce on its bytes (`none` = the library raises, folded by the
surrounding `try` into the raised `Exception` path).
-/

/-- What PIL `Image.open` yields on the upload bytes: format, color
mode, dimensions, and the base64 payload the source re-encodes. -/
structure ImageInfo where
  format : String
  mode : String
  width : Nat
  height : Nat
  b64 : String
deriving DecidableEq

/-- An uploaded file as `process_document` observes it. -/
structure UploadedFile where
  name : String
  mime : String
  size : Nat
  decodedText : Option String
  pdfPages : Option (List String)
  pdfTitle : Option String
  image : Option ImageInfo
deriving DecidableEq

/-- The possible outcomes of `process_document`: the three normal
returns, the `"unknown"` fall-through tuple `(None, metadata, "unknown")`,
and the raised `Exception("Error processing ...")`. -/
inductive ProcessResult where
  | textResult (content : String) (meta : FileMetadata)
  | pdfResult (content : String) (meta : FileMetadata)
  | imageResult (content : String) (meta : FileMetadata) (b64 : String)
  | unknownResult (meta : FileMetadata)
  | procError (msg : String)
deriving DecidableEq

/-- Python `s.startswith(pre)`. -/
def pyStartsWith (s pre : String) : Bool := charsLead pre.data s.data

/-- The stripped image-description f-string of the image branch. -/
def image_content_text (f : UploadedFile) (img : ImageInfo) : String :=
  "Medical Image Analysis Request\nImage Type: " ++ f.mime
    ++ "\nImage Format: " ++ img.format
    ++ "\nImage Size: " ++ toString img.width ++ "x" ++ toString img.height
    ++ " pixels\nImage Mode: " ++ img.mode
    ++ "\nFile Size: " ++ kbStr f.size ++ " KB\n\n"
    ++ "Note: This is a medical image that requires visual analysis for diagnostic purposes.\nThe image has been encoded for AI vision analysis."

/-- Source `app_enhanced.py` `process_document`. -/
def process_document (f : UploadedFile) : ProcessResult :=
  let meta0 : FileMetadata := { name := f.name, mime := f.mime, size := f.size }
  if f.mime = "text/plain" then
    match f.decodedText with
    | some t => .textResult t meta0
    | none => .procError ("Error processing " ++ f.mime ++ " file: decode failed")
  else if f.mime = "application/pdf" then
    match f.pdfPages with
    | some pages =>
      let meta1 := match f.pdfTitle with
        | some t => { meta0 with title := some t, pages := some pages.length }
        | none => meta0
      .pdfResult (pdfExtract pages) meta1
    | none => .procError ("Error processing " ++ f.mime ++ " file: parse failed")
  else if pyStartsWith f.mime "image/" then
    match f.image with
    | some img =>
      .imageResult (image_content_text f img)
        { meta0 with imgFormat := some img.format, imgMode := some img.mode,
                     imgWidth := some img.width, imgHeight := some img.height }
        img.b64
    | none => .procError ("Error processing " ++ f.mime ++ " file: parse failed")
  else .unknownResult meta0

/-- The accepted upload formats of the external interface (the uploader
widget admits pdf/txt/jpg/jpeg/png, i.e. these MIME types). -/
def acceptedMimeTypes : List String :=
  ["text/plain", "application/pdf", "image/jpeg", "image/png"]

/-- A result that rejects the upload: the unknown-format fall-through or
a raised error. -/
def isRejection : ProcessResult → Bool
  | .unknownResult _ => true
  | .procError _ => true
  | _ => false

/-- A normal image extraction result. -/
def isImageResult : ProcessResult → Bool
  | .imageResult _ _ _ => true
  | _ => false

/-- A GIF upload: declared type outside the accepted set, with bytes PIL
parses successfully. -/
def gifUpload : UploadedFile :=
  { name := "scan.gif", mime := "image/gif", size := 2048,
    decodedText := none, pdfPages := none, pdfTitle := none,
    image := some { format := "GIF", mode := "P", width := 100, height := 100, b64 := "QUJD" } }

/-- Counterexample to C5 as stated: the declared type `image/gif` is
outside the accepted set, yet `process_document` returns a normal image
extraction result rather than any rejection, because the image branch
matches every `image/*` declared type. -/
theorem gif_upload_not_rejected :
    ("image/gif" ∉ acceptedMimeTypes)
    ∧ isRejection (process_document gifUpload) = false
    ∧ isImageResult (process_document gifUpload) = true := by
  refine ⟨by decide, ?_, ?_⟩ <;> rfl

/-- C5 as amended: an upload whose declared MIME type is not
`text/plain`, not `application/pdf`, and does not start with `image/` is
rejected by `process_document` with the unknown-format sentinel (content
`None`, kind `"unknown"`) rather than a normal extraction result;
declared `image/*` types outside the accepted set (such as `image/gif`)
are instead processed by the image branch. -/
theorem process_document_unknown_declared_type (f : UploadedFile)
    (h1 : f.mime ≠ "text/plain") (h2 : f.mime ≠ "application/pdf")
    (h3 : pyStartsWith f.mime "image/" = false) :
    process_document f
      = .unknownResult { name := f.name, mime := f.mime, size := f.size } := by
  unfold process_document
  rw [if_neg h1, if_neg h2, h3]
  rfl

/-- A JSON upload used to witness the amended C5. -/
def jsonUpload : UploadedFile :=
  { name := "data.json", mime := "application/json", size := 10,
    decodedText := some "null", pdfPages := none, pdfTitle := none,
    image := none }

/-- Witness for the amended C5 at a concrete `application/json` upload. -/
theorem process_document_unknown_declared_type_witness :
    (jsonUpload.mime ≠ "text/plain"
      ∧ jsonUpload.mime ≠ "application/pdf"
      ∧ pyStartsWith jsonUpload.mime "image/" = false)
    ∧ process_document jsonUpload
        = .unknownResult { name := jsonUpload.name, mime := jsonUpload.mime,
                           size := jsonUpload.size } :=
  ⟨⟨by decide, by decide, by decide⟩,
   process_document_unknown_declared_type jsonUpload (by decide) (by decide)
     (by decide)⟩

/-! ## Documents table and audit log (`src/db.py`, `src/auth.py`) -/

/-- A row of the `documents` table as the chat context reads it
(document name, type, text notes, upload timestamp).  The table columns
are `type`/`file_path`/`text_content`; the embedding keeps the three
text payloads under the names the reading code uses. -/
structure DocRow where
  id : Nat
  patient_id : Nat
  name : String
  dtype : String
  notes : String
  upload_time : Nat
deriving DecidableEq

/-- The `documents` table with its id sequence and insertion clock
(`upload_time TIMESTAMP DEFAULT CURRENT_TIMESTAMP`). -/
structure DocDB where
  rows : List DocRow
  nextId : Nat
  clock : Nat
deriving DecidableEq

/-- Source `db.py` `add_document`: insert one document row, stamped with the
current time. -/
def add_document (db : DocDB) (patient_id : Nat) (name dtype notes : String) :
    DocDB :=
  { rows := db.rows ++ [⟨db.nextId, patient_id, name, dtype, notes, db.clock⟩]
    nextId := db.nextId + 1
    clock := db.clock + 1 }

/-- Insert a row into a list ordered by descending upload time. -/
def insertTsDesc (r : DocRow) : List DocRow → List DocRow
  | [] => [r]
  | x :: xs =>
    if x.upload_time ≤ r.upload_time then r :: x :: xs else x :: insertTsDesc r xs

/-- The `ORDER BY upload_time DESC` clause of `get_documents`, as an insertion sort. -/
def sortTsDesc : List DocRow → List DocRow
  | [] => []
  | x :: xs => insertTsDesc x (sortTsDesc xs)

/-- Source `db.py` `get_documents(patient_id)`: `SELECT * FROM documents WHERE
patient_id = ? ORDER BY upload_time DESC`. -/
def get_documents (db : DocDB) (patient_id : Nat) : List DocRow :=
  sortTsDesc (db.rows.filter (fun r => r.patient_id == patient_id))

/-- pandas `DataFrame.tail(n)`: the last `n` rows in frame order. -/
def pandasTail {α : Type} (n : Nat) (l : List α) : List α :=
  l.drop (l.length - n)

/-- The rows `show_ai_assistant` puts in the RECENT PATIENT DOCUMENTS
chat-context section: `recent_docs = patient_documents.tail(3)`
(`app_enhanced.py` line 1684, comment `# Last 3 documents`). -/
def chat_recent_documents (db : DocDB) (patient_id : Nat) : List DocRow :=
  pandasTail 3 (get_documents db patient_id)

/-- One record of the audit log (`auth.py` `log_audit_event`: user_id,
action, details, patient_id; the wall-clock timestamp and IP fields are
presentation data and are omitted). -/
structure AuditEntry where
  user_id : String
  action : String
  details : String
  patient_id : Option Nat
deriving DecidableEq

/-- Source `auth.py` `log_audit_event`: append one record to the audit log. -/
def log_audit_event (log : List AuditEntry) (user_id action details : String)
    (patient_id : Option Nat) : List AuditEntry :=
  log ++ [⟨user_id, action, details, patient_id⟩]

/-! ## AI orchestration flows (`src/app_enhanced.py`)

The chat submission branch of `show_ai_assistant` (lines 1645-1769) and
`perform_document_analysis` (lines 262-384).  The single synchronous
generation call is the only suspension point; its outcome is an
`Option String` (`none` = the collaborator raised, caught by the
surrounding `except`).
-/

/-- The mutable state the two flows touch: the conversation store, the
documents table, the audit log, and the Streamlit session chat list. -/
structure AppState where
  conv : ConvDB
  docs : DocDB
  audit : List AuditEntry
  session : List (String × String)
deriving DecidableEq

/-- The state right after startup, before any interaction. -/
def emptyAppState : AppState := ⟨⟨[], 1, 0⟩, ⟨[], 1, 0⟩, [], []⟩

/-- The chat flow at the moment the generation collaborator is invoked:
the user message has been appended to the session list (line 1647) and
durably inserted into the conversation store (line 1648) before the
`client.responses.create` call (line 1746). -/
def chat_submit_pre (st : AppState) (patient_id : Nat) (prompt : String) :
    AppState :=
  { st with
    session := st.session ++ [("user", prompt)]
    conv := add_ai_conversation_entry st.conv patient_id "user" prompt }

/-- The whole chat submission of `show_ai_assistant`: on success the
assistant reply is appended to the session and the store and one audit
event is logged (lines 1757-1765); the `except` branch only renders the
error and persists nothing further (lines 1767-1769). -/
def chat_submit (st : AppState) (patient_id : Nat) (prompt : String)
    (gen : Option String) (actor : String) : AppState :=
  let st1 := chat_submit_pre st patient_id prompt
  match gen with
  | some ai =>
    { st1 with
      session := st1.session ++ [("assistant", ai)]
      conv := add_ai_conversation_entry st1.conv patient_id "assistant" ai
      audit := log_audit_event st1.audit actor "ai_chat_interaction"
        ("AI chat with patient " ++ toString patient_id) (some patient_id) }
  | none => st1

/-- Source `perform_document_analysis`: one generation call on the assembled
prompt; on success the analysis text is saved as a document and then one
audit event is logged, both inside an inner `try` whose failure
(`saveOk = false`, e.g. `add_document` raising) is caught and only
warned about; a generation failure reaches the outer `except`, which
only renders the error. -/
def perform_document_analysis (st : AppState) (patient_id : Nat)
    (meta : FileMetadata) (doc_type : String) (gen : Option String)
    (saveOk : Bool) (actor : String) : AppState :=
  match gen with
  | none => st
  | some ai =>
    if saveOk then
      { st with
        docs := add_document st.docs patient_id meta.name doc_type ai
        audit := log_audit_event st.audit actor "document_analysis"
          ("AI analysis of " ++ doc_type ++ " document for patient "
            ++ toString patient_id) (some patient_id) }
    else st

/-- Number of stored conversation turns of a patient with a given role. -/
def countRole (db : ConvDB) (patient_id : Nat) (role : String) : Nat :=
  (db.rows.filter
    (fun r => r.patient_id == patient_id && r.role == role)).length

/-- C1: when the generation call of the chat flow fails, no assistant
turn is appended to the persisted history, while the user message was
already durably stored in the pre-invocation state: that state holds the
old rows plus exactly the user row, the failure outcome leaves the store
exactly as it was at invocation time, and the stored assistant-turn
count of the patient is unchanged. -/
theorem chat_failure_isolation (st : AppState) (patient_id : Nat)
    (prompt actor : String) :
    (chat_submit_pre st patient_id prompt).conv.rows
        = st.conv.rows ++ [newConvRow st.conv patient_id "user" prompt]
    ∧ (chat_submit st patient_id prompt none actor).conv
        = (chat_submit_pre st patient_id prompt).conv
    ∧ countRole (chat_submit st patient_id prompt none actor).conv
          patient_id "assistant"
        = countRole st.conv patient_id "assistant" := by
  refine ⟨rfl, rfl, ?_⟩
  show ((st.conv.rows ++ [newConvRow st.conv patient_id "user" prompt]).filter
      _).length = _
  rw [List.filter_append, List.length_append]
  simp [newConvRow, countRole]

/-- Counterexample to C2 as stated: a chat call and a document-analysis
call whose generation collaborator throws record zero audit entries, not
one. -/
theorem failed_ai_call_records_no_audit :
    (chat_submit emptyAppState 1 "question" none "dr").audit = []
    ∧ (perform_document_analysis emptyAppState 1 wMeta "text" none true
        "dr").audit = []
    ∧ ¬ ((chat_submit emptyAppState 1 "question" none "dr").audit.length
          = emptyAppState.audit.length + 1) := by decide

/-- C2 as amended: exactly one `AuditEntry` is recorded for a successful
chat call, and for a document-analysis call whose generation and save
both succeed; a call whose generation collaborator throws records no
audit entry, and neither does a document-analysis call whose save step
fails. -/
theorem audit_entry_only_on_success (st : AppState) (patient_id : Nat)
    (prompt ai actor : String) (meta : FileMetadata) (doc_type : String)
    (saveOk : Bool) :
    (chat_submit st patient_id prompt (some ai) actor).audit
        = st.audit ++ [⟨actor, "ai_chat_interaction",
            "AI chat with patient " ++ toString patient_id,
            some patient_id⟩]
    ∧ (chat_submit st patient_id prompt none actor).audit = st.audit
    ∧ (perform_document_analysis st patient_id meta doc_type (some ai)
          true actor).audit
        = st.audit ++ [⟨actor, "document_analysis",
            "AI analysis of " ++ doc_type ++ " document for patient "
              ++ toString patient_id, some patient_id⟩]
    ∧ (perform_document_analysis st patient_id meta doc_type (some ai)
          false actor).audit = st.audit
    ∧ (perform_document_analysis st patient_id meta doc_type none saveOk
          actor).audit = st.audit :=
  ⟨rfl, rfl, rfl, rfl, rfl⟩

/-- Four documents of patient 1 stored at increasing times 1..4. -/
def docDB4 : DocDB :=
  { rows := [⟨1, 1, "doc1", "text", "n1", 1⟩, ⟨2, 1, "doc2", "text", "n2", 2⟩,
             ⟨3, 1, "doc3", "text", "n3", 3⟩, ⟨4, 1, "doc4", "text", "n4", 4⟩]
    nextId := 5
    clock := 5 }

/-- C8, evaluated at the failing input: with four stored documents the
chat-context section holds documents 3, 2, 1 — the three oldest — while
the three most recently stored documents are 4, 3, 2; in particular the
most recent document (id 4) is absent.  `tail(3)` of the
`upload_time DESC`-ordered frame keeps its last three rows, contradicting
the `# Last 3 documents` intent. -/
theorem chat_recent_documents_are_oldest :
    (chat_recent_documents docDB4 1).map (fun r => r.id) = [3, 2, 1]
    ∧ ((get_documents docDB4 1).take 3).map (fun r => r.id) = [4, 3, 2]
    ∧ 4 ∉ (chat_recent_documents docDB4 1).map (fun r => r.id) := by decide

end EhrStreamlit
